import Mathlib

/-!
Shallow embedding of `assemblerflow/generator/process.py`: the `Process`
base class, its `Status` and `Init` specializations, and the concrete
catalog descriptors needed by the verified properties.

Python values that may be `None` are modelled with `Option`; the template
context (a Python `dict` from string keys to heterogeneous values) is an
association list over `CtxVal`; Python runtime exceptions raised by the
code paths under study become constructors of `PErr` and methods that can
raise return `Except PErr _`.  The filesystem consulted by
`Process._set_template` is passed explicitly as the list of existing file
paths, and the jinja2 engine used by `Process.render` (an external
dependency, used purely as a rendering utility) is a function parameter.
-/

deriving instance DecidableEq for Except

/-- Python's `str.startswith`, over the string's character list. -/
def pyStartswith (s pre : String) : Bool :=
  pre.data.isPrefixOf s.data

/-- Value stored in a template-context dictionary: Python `None`, an
`int`, or a `str`. -/
inductive CtxVal where
  | noneV
  | natV (n : Nat)
  | strV (s : String)
deriving DecidableEq

/-- How Python's `str.format` renders such a value. -/
def CtxVal.toStr : CtxVal → String
  | .noneV => "None"
  | .natV n => toString n
  | .strV s => s

/-- How Python's `str.format` renders an optional string (`None` prints
as "None"). -/
def pyStr : Option String → String
  | none => "None"
  | some s => s

/-- A Python dict with string keys, as an insertion-ordered association
list (unique keys are maintained by `dictSet`). -/
abbrev Ctx := List (String × CtxVal)

/-- Lookup `d[k]`, as an option. -/
def dictGet : Ctx → String → Option CtxVal
  | [], _ => none
  | kv :: rest, k => if kv.1 = k then some kv.2 else dictGet rest k

/-- Lookup `d.get(k)`: Python returns `None` when the key is absent. -/
def dictGetD (d : Ctx) (k : String) : CtxVal :=
  (dictGet d k).getD .noneV

/-- Assignment `d[k] = v`: replace the value at an existing key in place, otherwise
append the new pair at the end (Python dicts preserve insertion order). -/
def dictSet : Ctx → String → CtxVal → Ctx
  | [], k, v => [(k, v)]
  | kv :: rest, k, v => if kv.1 = k then (k, v) :: rest else kv :: dictSet rest k v

/-- Merge of dicts `d` then `e` (double-star unpacking): apply the updates of `e` to `d`, left to right. -/
def dictMerge (d : Ctx) : Ctx → Ctx
  | [] => d
  | kv :: rest => dictMerge (dictSet d kv.1 kv.2) rest

/-- Python runtime errors raised by the embedded code paths. -/
inductive PErr where
  /-- Raised as `Exception("Template ... does not exist")` by `_set_template`. -/
  | missingTemplate (path : String)
  /-- Raised as `Exception("Channels must be setup first using the set_channels
  method")` from the `template_str` property. -/
  | contextNotSet
  /-- Python `AttributeError`: reading an attribute that was never assigned. -/
  | attributeError (name : String)
  /-- Python `TypeError`: e.g. unpacking or item assignment on `None`. -/
  | typeError
  /-- Python `IndexError`: `l[0]` on an empty list. -/
  | indexError
deriving DecidableEq

/-- State of a `Process` instance (the attributes set by
`Process.__init__` plus `_output_channel`, which the source *reads* in
`set_secondary_channel` but never assigns anywhere: `none` models the
unbound attribute). -/
structure Process where
  pid : CtxVal := .noneV
  template : String
  _template_path : String
  input_type : Option String := none
  output_type : Option String := none
  ignore_type : Bool := false
  ignore_pid : Bool := false
  dependencies : List String := []
  lane : CtxVal := .noneV
  parent_lane : CtxVal := .noneV
  input_channel : Option String := none
  output_channel : Option String := none
  link_start : Option (List String) := some []
  link_end : List (String × String) := []
  status_channels : List String := ["STATUS"]
  status_strs : List String := []
  forks : List String := []
  main_forks : List String := []
  secondary_inputs : List (String × String) := []
  secondary_input_str : String := ""
  _context : Option Ctx := none
  _output_channel : Option String := none
deriving DecidableEq

/-- The templates directory fixed relative to the module
(`join(dirname(abspath(__file__)), "templates")`). -/
def tplDir : String := "templates"

/-- Path `join(tpl_dir, template + ".nf")` as computed by `_set_template`. -/
def tplPath (template : String) : String :=
  tplDir ++ "/" ++ template ++ ".nf"

/-- The attribute defaults established by `Process.__init__` once
`_set_template` has succeeded. -/
def Process.fresh (template : String) : Process :=
  { template := template, _template_path := tplPath template }

/-- Constructor `Process.__init__`: resolves the template path and raises when the
`.nf` file does not exist (`fs` is the set of existing paths). -/
def Process.init (fs : List String) (template : String) : Except PErr Process :=
  if tplPath template ∈ fs then .ok (Process.fresh template)
  else .error (.missingTemplate (tplPath template))

/-- Method `Process.set_main_channel_names`. -/
def Process.set_main_channel_names (self : Process)
    (input_suffix output_suffix : String) (lane : CtxVal) : Process :=
  { self with
    input_channel := some (self.template ++ "_in_" ++ input_suffix),
    output_channel := some (self.template ++ "_out_" ++ output_suffix),
    lane := lane }

/-- Method `Process.update_main_forks`: append the sink channel destination. -/
def Process.update_main_forks (self : Process) (sink : String) : Process :=
  { self with main_forks := self.main_forks ++ [sink] }

/-- The fork statement emitted by `set_channels` when `main_forks` is
non-empty: `set` operator for exactly one destination, otherwise `into`
with the destinations semicolon-joined. -/
def mainForkStmt (output_channel : Option String) : List String → Option String
  | [] => none
  | [d] => some ("\n" ++ pyStr output_channel ++ ".set\x7b " ++ d ++ " \x7d\n")
  | ds => some ("\n" ++ pyStr output_channel ++ ".into\x7b " ++
      String.intercalate ";" ds ++ " \x7d\n")

/-- Method `Process.set_channels`: records `kwargs.get("pid")`, appends the
position-qualified status names, appends the main-fork statement when
`main_forks` is non-empty, and rebuilds `_context` as
the merge of `kwargs` with the fixed keys `input_channel`,
`output_channel`, `template` and `forks`. -/
def Process.set_channels (self : Process) (kwargs : Ctx) : Process :=
  let kw := dictMerge [] kwargs
  let pid := dictGetD kw "pid"
  let status_strs :=
    self.status_strs ++ self.status_channels.map (fun i => i ++ "_" ++ pid.toStr)
  let forks := self.forks ++ (mainForkStmt self.output_channel self.main_forks).toList
  { self with
    pid := pid,
    status_strs := status_strs,
    forks := forks,
    _context := some (dictMerge kw
      [("input_channel", .strV (pyStr self.input_channel)),
       ("output_channel", .strV (pyStr self.output_channel)),
       ("template", .strV self.template),
       ("forks", .strV (String.intercalate "\n" forks))]) }

/-- The fork statement emitted by `set_secondary_channel` after
de-duplication: `set` for a single destination, otherwise `into`. -/
def forkStmt (source : String) : List String → String
  | [c] => "\n" ++ source ++ ".set\x7b " ++ c ++ " \x7d\n"
  | cs => "\n" ++ source ++ ".into\x7b " ++ String.intercalate ";" cs ++ " \x7d\n"

/-- Method `Process.set_secondary_channel`.  The `"MAIN"`-prefixed branch first
evaluates the underscore-prefix format of `self._output_channel`: that attribute is never
assigned anywhere in the source, so the access raises `AttributeError`
(the unreachable remainder of that branch follows the source text).  The
non-main branch position-qualifies the source.  `list(set(channel_list))`
is modelled by `List.dedup` (CPython's set iteration order is
unspecified; no verified property depends on the order). -/
def Process.set_secondary_channel (self : Process) (source : String)
    (channel_list : List String) : Except PErr Process :=
  if pyStartswith source "MAIN" then
    match self._output_channel with
    | none => .error (.attributeError "_output_channel")
    | some oc =>
      match self._context with
      | none => .error .typeError
      | some ctx =>
        let ctx := dictSet ctx "output_channel" (.strV ("_" ++ oc))
        let source := "_" ++ oc
        let channel_list := (channel_list ++ [oc]).dedup
        let forks := self.forks ++ [forkStmt source channel_list]
        .ok { self with
              forks := forks,
              _context := some (dictSet ctx "forks"
                (.strV (String.intercalate "\n" forks))) }
  else
    let source := source ++ "_" ++ self.pid.toStr
    let channel_list := channel_list.dedup
    let forks := self.forks ++ [forkStmt source channel_list]
    match self._context with
    | none => .error .typeError
    | some ctx =>
      .ok { self with
            forks := forks,
            _context := some (dictSet ctx "forks"
              (.strV (String.intercalate "\n" forks))) }

/-- Property `Process.template_str`: raises when `_context` is falsy (`None` or
the empty dict), otherwise renders the template through the external
jinja2 engine, passed here as the function `jinja`. -/
def Process.template_str (jinja : String → Ctx → String)
    (self : Process) : Except PErr String :=
  match self._context with
  | none => .error .contextNotSet
  | some [] => .error .contextNotSet
  | some ctx => .ok (jinja self._template_path ctx)

/-- Method `Status.set_status_channels`: one channel is stored verbatim, more
than one become `"<first>.mix(<rest, comma-joined>)"`; the empty list
hits `channel_list[0]` and raises `IndexError`. -/
def Status.set_status_channels (self : Process)
    (channel_list : List String) : Except PErr Process :=
  match channel_list with
  | [] => .error .indexError
  | [c] => .ok { self with _context := some [("status_channels", .strV c)] }
  | c :: rest =>
    .ok { self with _context := some [("status_channels",
      .strV (c ++ ".mix(" ++ String.intercalate "," rest ++ ")"))] }

/-- Constructor `Init.__init__`: output type `"raw"`, no status channels. -/
def Init.fresh (template : String) : Process :=
  { Process.fresh template with
    input_type := none, output_type := some "raw", status_channels := [] }

/-- One value of the mapping passed to `Init.set_raw_inputs`. -/
structure RawInput where
  channel : String
  channel_str : String
  raw_forks : List String
deriving DecidableEq

/-- The fork statement `set_raw_inputs` emits for one raw-input record:
`set` for a single raw-fork target, otherwise `into` with the targets
semicolon-joined. -/
def rawForkStmt (el : RawInput) : String :=
  match el.raw_forks with
  | [f] => "\n" ++ el.channel ++ ".set\x7b " ++ f ++ " \x7d\n"
  | fs => "\n" ++ el.channel ++ ".into\x7b " ++
      String.intercalate ";" fs ++ " \x7d\n"

/-- Method `Init.set_raw_inputs`: collect each record's bootstrap statement,
append a `set`/`into` fork per record, then rebuild the context as
a merge into `self._context` — which raises `TypeError` when `_context` is
still `None` (freshly constructed descriptor). -/
def Init.set_raw_inputs (self : Process)
    (raw_input : List RawInput) : Except PErr Process :=
  let primary_inputs := raw_input.map (·.channel_str)
  let forks := self.forks ++ raw_input.map rawForkStmt
  match self._context with
  | none => .error .typeError
  | some ctx =>
    .ok { self with
          forks := forks,
          _context := some (dictMerge ctx
            [("forks", .strV (String.intercalate "\n" forks)),
             ("main_inputs", .strV (String.intercalate "\n" primary_inputs))]) }

/-- Method `Init.set_secondary_inputs`: newline-join the mapping's values into
the context's `secondary_inputs` key. -/
def Init.set_secondary_inputs (self : Process)
    (channel_dict : List (String × String)) : Except PErr Process :=
  let s := String.intercalate "\n" (channel_dict.map (·.2))
  match self._context with
  | none => .error .typeError
  | some ctx =>
    .ok { self with
      _context := some (dictMerge ctx [("secondary_inputs", .strV s)]) }

/-- Constructor `FastQC.__init__`: fastq in and out, two status channels, the
adapters secondary input. -/
def FastQC.fresh (template : String) : Process :=
  { Process.fresh template with
    input_type := some "fastq", output_type := some "fastq",
    status_channels := ["STATUS_fastqc", "STATUS_report"],
    secondary_inputs :=
      [("adapters", "IN_adapters = Channel.value(params.adapters)")] }

/-- Constructor `Spades.__init__`: fastq to assembly, `SIDE_max_len` link end. -/
def Spades.fresh (template : String) : Process :=
  { Process.fresh template with
    input_type := some "fastq", output_type := some "assembly",
    link_end := [("SIDE_max_len", "SIDE_max_len")],
    secondary_inputs :=
      [("spadesOpts", "IN_spades_opts = Channel.value([params.spadesMinCoverage,params.spadesMinKmerCoverage])"),
       ("spadesKmers", "IN_spades_kmers = Channel.value(params.spadesKmers)")] }

/-- Constructor `StatusCompiler.__init__`: ignores types, no link starts. -/
def StatusCompiler.fresh (template : String) : Process :=
  { Process.fresh template with ignore_type := true, link_start := none }

/-! ### Dictionary lemmas -/

theorem dictGet_set_self (d : Ctx) (k : String) (v : CtxVal) :
    dictGet (dictSet d k v) k = some v := by
  induction d with
  | nil => simp [dictSet, dictGet]
  | cons kv rest ih =>
    by_cases h : kv.1 = k
    · simp [dictSet, h, dictGet]
    · simp [dictSet, h, dictGet, ih]

theorem dictSet_ne_nil (d : Ctx) (k : String) (v : CtxVal) :
    dictSet d k v ≠ [] := by
  cases d with
  | nil => simp [dictSet]
  | cons kv rest =>
    by_cases h : kv.1 = k <;> simp [dictSet, h]

theorem dictMerge_ne_nil (e d : Ctx) (h : d ≠ []) : dictMerge d e ≠ [] := by
  induction e generalizing d with
  | nil => exact h
  | cons kv rest ih => exact ih _ (dictSet_ne_nil d kv.1 kv.2)

theorem dictMerge_cons_ne_nil (d : Ctx) (kv : String × CtxVal) (e : Ctx) :
    dictMerge d (kv :: e) ≠ [] := by
  show dictMerge (dictSet d kv.1 kv.2) e ≠ []
  exact dictMerge_ne_nil e _ (dictSet_ne_nil d kv.1 kv.2)

theorem foldl_update_main_forks (ds : List String) (p : Process) :
    ds.foldl Process.update_main_forks p = { p with main_forks := p.main_forks ++ ds } := by
  induction ds generalizing p with
  | nil => simp
  | cons d rest ih =>
    simp only [List.foldl_cons, ih, Process.update_main_forks, List.append_assoc,
      List.singleton_append]

/-! ### Claims -/

/-- Descriptor used for claim C1: a `spades` process at position 3 with
output channel `spades_out_3` and an established context. -/
def c1_proc : Process :=
  Process.set_channels
    ((Process.fresh "spades").set_main_channel_names "2" "3" (.natV 1))
    [("pid", .natV 3)]

/-- Claim C1: with source `"MAIN_2"` and current output channel
`"spades_out_3"`, `set_secondary_channel` is claimed to rename the
output-channel context value to `"_spades_out_3"`, fork from the
underscored name and add `"spades_out_3"` to the destinations.  The code
instead raises `AttributeError`: the `"MAIN"` branch reads
`self._output_channel`, an attribute that is never assigned anywhere in
the source (it should read `self.output_channel`, per the method's own
docstring).  This theorem evaluates the code at the failing input. -/
theorem c1_main_fork_reads_unassigned_attribute :
    c1_proc.output_channel = some "spades_out_3" ∧
    c1_proc._context ≠ none ∧
    c1_proc.set_secondary_channel "MAIN_2" ["extra_dest"] =
      .error (.attributeError "_output_channel") := by
  refine ⟨by decide, by decide, by decide⟩

/-- Claim C2: constructing a descriptor whose template identifier has no
corresponding `<templates-dir>/<identifier>.nf` file fails with
`MissingTemplate` and produces no descriptor; when the file exists,
construction succeeds and records the resolved template path. -/
theorem c2_missing_template (fs : List String) (t : String) :
    (tplPath t ∉ fs →
      Process.init fs t = .error (.missingTemplate (tplPath t))) ∧
    (tplPath t ∈ fs →
      Process.init fs t = .ok (Process.fresh t) ∧
      (Process.fresh t)._template_path = tplPath t) := by
  constructor
  · intro h
    simp [Process.init, h]
  · intro h
    exact ⟨by simp [Process.init, h], rfl⟩

/-- Witness for C2 at the template identifier `"spades"` with an empty
filesystem (failure) and a filesystem holding exactly the resolved path
(success). -/
theorem c2_missing_template_witness :
    Process.init [] "spades" = .error (.missingTemplate (tplPath "spades")) ∧
    Process.init [tplPath "spades"] "spades" = .ok (Process.fresh "spades") :=
  ⟨(c2_missing_template [] "spades").1 (by decide),
   ((c2_missing_template [tplPath "spades"] "spades").2 (by decide)).1⟩

/-- Claim C3: after `update_main_forks` has supplied the broadcast
destinations `ds` (starting from an empty list), `set_channels` appends
a `set`-form fork statement for exactly one destination, an `into`-form
statement with all destinations semicolon-joined in supply order for two
or more, and no statement when `ds` is empty. -/
theorem c3_set_channels_fork_forms (p : Process) (kw : Ctx) (ds : List String)
    (h : p.main_forks = []) :
    (ds = [] →
      (Process.set_channels (ds.foldl Process.update_main_forks p) kw).forks =
        p.forks) ∧
    (∀ d, ds = [d] →
      (Process.set_channels (ds.foldl Process.update_main_forks p) kw).forks =
        p.forks ++
          ["\n" ++ pyStr p.output_channel ++ ".set\x7b " ++ d ++ " \x7d\n"]) ∧
    (∀ d1 d2 rest, ds = d1 :: d2 :: rest →
      (Process.set_channels (ds.foldl Process.update_main_forks p) kw).forks =
        p.forks ++
          ["\n" ++ pyStr p.output_channel ++ ".into\x7b " ++
            String.intercalate ";" ds ++ " \x7d\n"]) := by
  refine ⟨?_, ?_, ?_⟩
  · rintro rfl
    simp [foldl_update_main_forks, h, Process.set_channels, mainForkStmt]
  · rintro d rfl
    simp [foldl_update_main_forks, h, Process.set_channels, mainForkStmt,
      Process.update_main_forks]
  · rintro d1 d2 rest rfl
    simp [foldl_update_main_forks, h, Process.set_channels, mainForkStmt,
      Process.update_main_forks]

/-- Witness for C3: a fresh process, destinations `["a", "b"]`, yields
the `into`-form statement; destinations `["a"]` yield the `set` form;
no destinations yield no statement. -/
theorem c3_set_channels_fork_forms_witness :
    (Process.set_channels
        (List.foldl Process.update_main_forks (Process.fresh "t") ["a", "b"])
        []).forks =
      (Process.fresh "t").forks ++
        ["\n" ++ pyStr (Process.fresh "t").output_channel ++ ".into\x7b " ++
          String.intercalate ";" ["a", "b"] ++ " \x7d\n"] ∧
    (Process.set_channels
        (List.foldl Process.update_main_forks (Process.fresh "t") ["a"])
        []).forks =
      (Process.fresh "t").forks ++
        ["\n" ++ pyStr (Process.fresh "t").output_channel ++ ".set\x7b " ++
          "a" ++ " \x7d\n"] ∧
    (Process.set_channels
        (List.foldl Process.update_main_forks (Process.fresh "t") [])
        []).forks = (Process.fresh "t").forks :=
  ⟨(c3_set_channels_fork_forms (Process.fresh "t") [] ["a", "b"] rfl).2.2
      "a" "b" [] rfl,
   (c3_set_channels_fork_forms (Process.fresh "t") [] ["a"] rfl).2.1 "a" rfl,
   (c3_set_channels_fork_forms (Process.fresh "t") [] [] rfl).1 rfl⟩

/-- Claim C4: on a descriptor at position 7 with an established context,
`set_secondary_channel` with non-main source `"SIDE_phred"` and
destinations `["trim_in_8"]` qualifies the source to `"SIDE_phred_7"`
and appends exactly `"\nSIDE_phred_7.set\x7b trim_in_8 \x7d\n"` to the fork
list and, newline-joined with the earlier forks, to the context's
`"forks"` value. -/
theorem c4_side_channel_qualified (p : Process) (ctx : Ctx)
    (hctx : p._context = some ctx) (hpid : p.pid = .natV 7) :
    p.set_secondary_channel "SIDE_phred" ["trim_in_8"] =
      .ok { p with
            forks := p.forks ++ ["\nSIDE_phred_7.set\x7b trim_in_8 \x7d\n"],
            _context := some (dictSet ctx "forks"
              (.strV (String.intercalate "\n"
                (p.forks ++ ["\nSIDE_phred_7.set\x7b trim_in_8 \x7d\n"])))) } := by
  have hsw : pyStartswith "SIDE_phred" "MAIN" = false := by decide
  have hsrc : "SIDE_phred" ++ "_" ++ CtxVal.toStr (.natV 7) = "SIDE_phred_7" := by
    decide
  have hsrc2 : "SIDE_phred_" ++ CtxVal.toStr (.natV 7) = "SIDE_phred_7" := by
    decide
  have hd : (["trim_in_8"] : List String).dedup = ["trim_in_8"] := by decide
  have hstmt : forkStmt "SIDE_phred_7" ["trim_in_8"] =
      "\nSIDE_phred_7.set\x7b trim_in_8 \x7d\n" := by decide
  simp [Process.set_secondary_channel, hsw, hctx, hpid, hsrc, hsrc2, hd, hstmt]

/-- Concrete descriptor for the C4 witness: a `trimmomatic` process
whose context was set with position index 7. -/
def c4_proc : Process :=
  Process.set_channels (Process.fresh "trimmomatic") [("pid", CtxVal.natV 7)]

/-- The context `set_channels` built for `c4_proc`. -/
def c4_ctx : Ctx :=
  [("pid", .natV 7), ("input_channel", .strV "None"),
   ("output_channel", .strV "None"), ("template", .strV "trimmomatic"),
   ("forks", .strV "")]

/-- Witness for C4 at `c4_proc`. -/
theorem c4_side_channel_qualified_witness :
    c4_proc.set_secondary_channel "SIDE_phred" ["trim_in_8"] =
      .ok { c4_proc with
            forks := c4_proc.forks ++ ["\nSIDE_phred_7.set\x7b trim_in_8 \x7d\n"],
            _context := some (dictSet c4_ctx "forks"
              (.strV (String.intercalate "\n"
                (c4_proc.forks ++ ["\nSIDE_phred_7.set\x7b trim_in_8 \x7d\n"])))) } :=
  c4_side_channel_qualified c4_proc c4_ctx (by decide) (by decide)

/-- Counterexample for C5 as stated ("for every source"): with a
`"MAIN"`-prefixed source, `set_secondary_channel` raises
`AttributeError` (the unresolved `_output_channel` reference) instead of
emitting any statement, duplicated destinations or not. -/
theorem c5_dedup_counterexample :
    (Process.set_channels (Process.fresh "t")
        [("pid", CtxVal.natV 1)]).set_secondary_channel
        "MAIN_x" ["dup_dest", "dup_dest"] =
      .error (.attributeError "_output_channel") := by decide

/-- Claim C5 (amended to sources not beginning with `"MAIN"`, whose path
aborts on the unassigned attribute): with an established context, a
destination list containing a channel at least twice is de-duplicated
before the statement is emitted, so the emitted statement's destination
list holds that channel exactly once (and no duplicates at all). -/
theorem c5_dedup (p : Process) (ctx : Ctx) (s x : String) (l : List String)
    (hctx : p._context = some ctx) (hmain : pyStartswith s "MAIN" = false)
    (hx : 2 ≤ l.count x) :
    ∃ q, p.set_secondary_channel s l = .ok q ∧
      q.forks = p.forks ++ [forkStmt (s ++ "_" ++ p.pid.toStr) l.dedup] ∧
      l.dedup.count x = 1 ∧ l.dedup.Nodup := by
  refine ⟨{ p with
      forks := p.forks ++ [forkStmt (s ++ "_" ++ p.pid.toStr) l.dedup],
      _context := some (dictSet ctx "forks"
        (.strV (String.intercalate "\n"
          (p.forks ++ [forkStmt (s ++ "_" ++ p.pid.toStr) l.dedup])))) },
    ?_, rfl, ?_, List.nodup_dedup l⟩
  · simp [Process.set_secondary_channel, hmain, hctx]
  · have hmem : x ∈ l := List.count_pos_iff.mp (by omega)
    rw [List.count_dedup]
    simp [hmem]

/-- Concrete descriptor for the C5 witness. -/
def c5_proc : Process :=
  Process.set_channels (Process.fresh "t") [("pid", CtxVal.natV 1)]

/-- The context `set_channels` built for `c5_proc`. -/
def c5_ctx : Ctx :=
  [("pid", .natV 1), ("input_channel", .strV "None"),
   ("output_channel", .strV "None"), ("template", .strV "t"),
   ("forks", .strV "")]

/-- Witness for C5 with the duplicated destination `"dup_dest"`. -/
theorem c5_dedup_witness :
    ∃ q, c5_proc.set_secondary_channel "SIDE_x" ["dup_dest", "dup_dest"] =
        .ok q ∧
      q.forks = c5_proc.forks ++
        [forkStmt ("SIDE_x" ++ "_" ++ c5_proc.pid.toStr)
          (["dup_dest", "dup_dest"] : List String).dedup] ∧
      (["dup_dest", "dup_dest"] : List String).dedup.count "dup_dest" = 1 ∧
      (["dup_dest", "dup_dest"] : List String).dedup.Nodup :=
  c5_dedup c5_proc c5_ctx "SIDE_x" "dup_dest" ["dup_dest", "dup_dest"]
    (by decide) (by decide) (by decide)

/-- Claim C6: `set_channels` appends every status base name
position-qualified as `"<base>_<pid>"`, in list order; in particular a
default descriptor (`["STATUS"]`) at position 5 yields `["STATUS_5"]`
and FastQC (`["STATUS_fastqc", "STATUS_report"]`) at position 2 yields
`["STATUS_fastqc_2", "STATUS_report_2"]`. -/
theorem c6_status_position_qualified (p : Process) (kw : Ctx) (n : Nat)
    (h : dictGetD (dictMerge [] kw) "pid" = .natV n) :
    (Process.set_channels p kw).status_strs =
      p.status_strs ++
        p.status_channels.map (fun b => b ++ "_" ++ toString n) ∧
    (Process.set_channels (Process.fresh "integrity_coverage")
        [("pid", .natV 5)]).status_strs = ["STATUS_5"] ∧
    (Process.set_channels (FastQC.fresh "fastqc")
        [("pid", .natV 2)]).status_strs =
      ["STATUS_fastqc_2", "STATUS_report_2"] := by
  refine ⟨?_, by decide, by decide⟩
  simp [Process.set_channels, h, CtxVal.toStr]

/-- Witness for C6 on a fresh default descriptor at position 5. -/
theorem c6_status_position_qualified_witness :
    (Process.set_channels (Process.fresh "integrity_coverage")
        [("pid", CtxVal.natV 5)]).status_strs =
      (Process.fresh "integrity_coverage").status_strs ++
        (Process.fresh "integrity_coverage").status_channels.map
          (fun b => b ++ "_" ++ toString 5) :=
  (c6_status_position_qualified (Process.fresh "integrity_coverage")
    [("pid", CtxVal.natV 5)] 5 (by decide)).1

/-- Claim C7: the Status aggregator's `set_status_channels` stores a
single channel verbatim in the context's `status_channels` value and
stores `"<first>.mix(<rest, comma-joined>)"` for more than one, the rest
in input order; checked both generally and on the StatusCompiler with
`["STATUS_1"]` and `["STATUS_1", "STATUS_2", "STATUS_3"]`. -/
theorem c7_status_mix (p : Process) (c : String) :
    Status.set_status_channels p [c] =
      .ok { p with _context := some [("status_channels", .strV c)] } ∧
    (∀ r rs, Status.set_status_channels p (c :: r :: rs) =
      .ok { p with _context := some [("status_channels",
        .strV (c ++ ".mix(" ++ String.intercalate "," (r :: rs) ++ ")"))] }) ∧
    Status.set_status_channels (StatusCompiler.fresh "status_compiler")
        ["STATUS_1"] =
      .ok { StatusCompiler.fresh "status_compiler" with
            _context := some [("status_channels", .strV "STATUS_1")] } ∧
    Status.set_status_channels (StatusCompiler.fresh "status_compiler")
        ["STATUS_1", "STATUS_2", "STATUS_3"] =
      .ok { StatusCompiler.fresh "status_compiler" with
            _context := some [("status_channels",
              .strV "STATUS_1.mix(STATUS_2,STATUS_3)")] } := by
  exact ⟨rfl, fun r rs => rfl, by decide, by decide⟩

theorem template_str_ok (jinja : String → Ctx → String) (p : Process)
    (ctx : Ctx) (h : p._context = some ctx) (hne : ctx ≠ []) :
    ∃ s, p.template_str jinja = .ok s := by
  cases ctx with
  | nil => exact absurd rfl hne
  | cons a as =>
    exact ⟨jinja p._template_path (a :: as), by simp [Process.template_str, h]⟩

/-- Claim C8: requesting rendered text with no context established fails
with `ContextNotSet` (in particular on any freshly constructed
descriptor), while after a context-populating operation — `set_channels`,
the Status aggregator's `set_status_channels` on a non-empty list, or
`Init.set_raw_inputs` on a descriptor with a context — rendering
succeeds. -/
theorem c8_context_not_set (jinja : String → Ctx → String) (p : Process) :
    (p._context = none → p.template_str jinja = .error .contextNotSet) ∧
    (∀ t, (Process.fresh t).template_str jinja = .error .contextNotSet) ∧
    (∀ kw, ∃ s, (Process.set_channels p kw).template_str jinja = .ok s) ∧
    (∀ c rest, ∃ q s, Status.set_status_channels p (c :: rest) = .ok q ∧
      q.template_str jinja = .ok s) ∧
    (∀ ri ctx, p._context = some ctx →
      ∃ q s, Init.set_raw_inputs p ri = .ok q ∧
        q.template_str jinja = .ok s) := by
  refine ⟨?_, ?_, ?_, ?_, ?_⟩
  · intro h
    simp [Process.template_str, h]
  · intro t
    rfl
  · intro kw
    exact template_str_ok jinja _ _ rfl (dictMerge_cons_ne_nil _ _ _)
  · intro c rest
    cases rest with
    | nil => exact ⟨_, _, rfl, rfl⟩
    | cons r rs => exact ⟨_, _, rfl, rfl⟩
  · intro ri ctx hc
    have hok : Init.set_raw_inputs p ri = .ok { p with
        forks := p.forks ++ ri.map rawForkStmt,
        _context := some (dictMerge ctx
          [("forks", .strV (String.intercalate "\n"
             (p.forks ++ ri.map rawForkStmt))),
           ("main_inputs", .strV (String.intercalate "\n"
             (ri.map (·.channel_str))))]) } := by
      simp [Init.set_raw_inputs, hc]
    obtain ⟨s, hs⟩ := template_str_ok jinja
      { p with
        forks := p.forks ++ ri.map rawForkStmt,
        _context := some (dictMerge ctx
          [("forks", .strV (String.intercalate "\n"
             (p.forks ++ ri.map rawForkStmt))),
           ("main_inputs", .strV (String.intercalate "\n"
             (ri.map (·.channel_str))))]) } _ rfl (dictMerge_cons_ne_nil _ _ _)
    exact ⟨_, s, hok, hs⟩

/-- Concrete Entry-Point descriptor for the C8 witness: a fresh `Init`
whose context was established by `set_channels`. -/
def c8_proc : Process := Process.set_channels (Init.fresh "init") []

/-- The context `set_channels` built for `c8_proc`. -/
def c8_ctx : Ctx :=
  [("input_channel", .strV "None"), ("output_channel", .strV "None"),
   ("template", .strV "init"), ("forks", .strV "")]

/-- Witness for C8: a fresh descriptor fails with `ContextNotSet`, and a
descriptor with an established context renders after `set_raw_inputs`. -/
theorem c8_context_not_set_witness :
    (Process.fresh "t").template_str (fun _ _ => "rendered") =
      .error .contextNotSet ∧
    (∃ q s, Init.set_raw_inputs c8_proc
        [⟨"IN_fastq_raw", "IN_fastq_raw = Channel.fromFilePairs(params.fastq)",
          ["ch_1"]⟩] = .ok q ∧
      q.template_str (fun _ _ => "rendered") = .ok s) :=
  ⟨(c8_context_not_set (fun _ _ => "rendered") (Process.fresh "t")).1 rfl,
   (c8_context_not_set (fun _ _ => "rendered") c8_proc).2.2.2.2
     [⟨"IN_fastq_raw", "IN_fastq_raw = Channel.fromFilePairs(params.fastq)",
       ["ch_1"]⟩] c8_ctx (by decide)⟩

/-- Counterexample for C9 as stated ("freshly constructed"): on a fresh
Entry-Point descriptor `_context` is still `None`, so `set_raw_inputs`
hits the unpacking of `self._context` and raises `TypeError` instead of setting
`main_inputs`. -/
theorem c9_raw_inputs_counterexample :
    Init.set_raw_inputs (Init.fresh "init")
        [⟨"IN_fastq_raw", "IN_fastq_raw = Channel.fromFilePairs(params.fastq)",
          ["ch_1"]⟩] =
      .error .typeError := by decide

/-- Claim C9 (amended to require an established context, e.g. from a
prior `set_channels` call — on a freshly constructed descriptor the
operation raises `TypeError` unpacking `None`): one raw-input record with a
single fork target appends `"\n<channel>.set\x7b <target> \x7d\n"` and sets the
context's `main_inputs` value to the record's bootstrap statement; a
record with two fork targets appends the `into` form with the targets
semicolon-joined. -/
theorem c9_raw_inputs (p : Process) (ctx : Ctx) (rec : RawInput)
    (hc : p._context = some ctx) :
    (∀ t, rec.raw_forks = [t] →
      Init.set_raw_inputs p [rec] = .ok { p with
        forks := p.forks ++
          ["\n" ++ rec.channel ++ ".set\x7b " ++ t ++ " \x7d\n"],
        _context := some (dictMerge ctx
          [("forks", .strV (String.intercalate "\n" (p.forks ++
             ["\n" ++ rec.channel ++ ".set\x7b " ++ t ++ " \x7d\n"]))),
           ("main_inputs", .strV rec.channel_str)]) }) ∧
    (∀ t1 t2, rec.raw_forks = [t1, t2] →
      Init.set_raw_inputs p [rec] = .ok { p with
        forks := p.forks ++
          ["\n" ++ rec.channel ++ ".into\x7b " ++
            String.intercalate ";" [t1, t2] ++ " \x7d\n"],
        _context := some (dictMerge ctx
          [("forks", .strV (String.intercalate "\n" (p.forks ++
             ["\n" ++ rec.channel ++ ".into\x7b " ++
               String.intercalate ";" [t1, t2] ++ " \x7d\n"]))),
           ("main_inputs", .strV rec.channel_str)]) }) := by
  have hmain : String.intercalate "\n" [rec.channel_str] = rec.channel_str := rfl
  constructor
  · intro t ht
    simp [Init.set_raw_inputs, hc, rawForkStmt, ht, hmain]
  · intro t1 t2 ht
    simp [Init.set_raw_inputs, hc, rawForkStmt, ht, hmain]

/-- Concrete Entry-Point descriptor for the C9 witness, with a context
established by `set_channels`. -/
def c9_proc : Process := Process.set_channels (Init.fresh "init_ep") []

/-- The context `set_channels` built for `c9_proc`. -/
def c9_ctx : Ctx :=
  [("input_channel", .strV "None"), ("output_channel", .strV "None"),
   ("template", .strV "init_ep"), ("forks", .strV "")]

/-- Witness for C9: the fastq raw-input record with the single fork
target `"ch_1"`. -/
theorem c9_raw_inputs_witness :
    Init.set_raw_inputs c9_proc
        [⟨"IN_fastq_raw", "IN_fastq_raw = Channel.fromFilePairs(params.fastq)",
          ["ch_1"]⟩] =
      .ok { c9_proc with
        forks := c9_proc.forks ++
          ["\n" ++ "IN_fastq_raw" ++ ".set\x7b " ++ "ch_1" ++ " \x7d\n"],
        _context := some (dictMerge c9_ctx
          [("forks", .strV (String.intercalate "\n" (c9_proc.forks ++
             ["\n" ++ "IN_fastq_raw" ++ ".set\x7b " ++ "ch_1" ++ " \x7d\n"]))),
           ("main_inputs",
            .strV "IN_fastq_raw = Channel.fromFilePairs(params.fastq)")]) } :=
  (c9_raw_inputs c9_proc c9_ctx
    ⟨"IN_fastq_raw", "IN_fastq_raw = Channel.fromFilePairs(params.fastq)",
      ["ch_1"]⟩ (by decide)).1 "ch_1" rfl

theorem dictGetD_set_self (d : Ctx) (k : String) (v : CtxVal) :
    dictGetD (dictSet d k v) k = v := by
  simp [dictGetD, dictGet_set_self]

/-- Claim C10 (implicit, from the code): `set_channels` does not reset
state.  A second call with the same keyword arguments on an unchanged
non-empty broadcast-destination list appends again: each
position-qualified status name appears twice in the status-string list,
the broadcast fork statement appears twice in the fork list and hence
twice (newline-joined) in the context's `"forks"` value, while the
broadcast-destination list itself is left untouched — only the context
mapping is rebuilt. -/
theorem c10_set_channels_accumulates (p : Process) (kw : Ctx) (n : Nat)
    (f : String) (hs : p.status_strs = []) (hf : p.forks = [])
    (hpid : dictGetD (dictMerge [] kw) "pid" = .natV n)
    (hmf : mainForkStmt p.output_channel p.main_forks = some f) :
    (Process.set_channels (Process.set_channels p kw) kw).status_strs =
      p.status_channels.map (fun b => b ++ "_" ++ toString n) ++
        p.status_channels.map (fun b => b ++ "_" ++ toString n) ∧
    (Process.set_channels (Process.set_channels p kw) kw).forks = [f, f] ∧
    dictGetD
        ((Process.set_channels (Process.set_channels p kw) kw)._context.getD [])
        "forks" =
      .strV (String.intercalate "\n" [f, f]) ∧
    (Process.set_channels (Process.set_channels p kw) kw).main_forks =
      p.main_forks := by
  refine ⟨?_, ?_, ?_, rfl⟩
  · simp [Process.set_channels, hs, hpid, CtxVal.toStr]
  · simp [Process.set_channels, hf, hmf]
  · simp [Process.set_channels, hf, hmf, dictMerge, dictGetD_set_self]

/-- Concrete descriptor for the C10 witness: output channel `t_out_1`
and one broadcast destination `sink_a`. -/
def c10_proc : Process :=
  ((Process.fresh "t").set_main_channel_names "1" "1" (.natV 1)).update_main_forks
    "sink_a"

/-- Witness for C10 at position 4. -/
theorem c10_set_channels_accumulates_witness :
    (Process.set_channels (Process.set_channels c10_proc [("pid", CtxVal.natV 4)])
        [("pid", CtxVal.natV 4)]).status_strs =
      c10_proc.status_channels.map (fun b => b ++ "_" ++ toString 4) ++
        c10_proc.status_channels.map (fun b => b ++ "_" ++ toString 4) ∧
    (Process.set_channels (Process.set_channels c10_proc [("pid", CtxVal.natV 4)])
        [("pid", CtxVal.natV 4)]).forks =
      ["\nt_out_1.set\x7b sink_a \x7d\n", "\nt_out_1.set\x7b sink_a \x7d\n"] ∧
    dictGetD
        ((Process.set_channels
            (Process.set_channels c10_proc [("pid", CtxVal.natV 4)])
            [("pid", CtxVal.natV 4)])._context.getD [])
        "forks" =
      .strV (String.intercalate "\n"
        ["\nt_out_1.set\x7b sink_a \x7d\n", "\nt_out_1.set\x7b sink_a \x7d\n"]) ∧
    (Process.set_channels (Process.set_channels c10_proc [("pid", CtxVal.natV 4)])
        [("pid", CtxVal.natV 4)]).main_forks = c10_proc.main_forks :=
  c10_set_channels_accumulates c10_proc [("pid", CtxVal.natV 4)] 4
    "\nt_out_1.set\x7b sink_a \x7d\n" (by decide) (by decide) (by decide)
    (by decide)
